import Mathlib

/-!
Verification of the round-coordination and objective-assignment core of the
summit chatroom service: the in-memory conversation store (`session.py`) and
the sabotage/objective engine (`persona_objectives.py`), shallowly embedded
as executable Lean definitions.  Python dicts keyed by strings are embedded
as association lists (`List (String × _)`); `defaultdict` reads become
lookups with a default value; the engine's uses of the `random` module are
supplied through an explicit oracle record, so every function is a pure
state transformer.  Fallible paths (`random.choice` on an empty list) return
`none`.
-/

set_option maxRecDepth 8000

-- ===========================================================================
-- Association-list maps (embedding of Python dict / defaultdict)
-- ===========================================================================

/-- Lookup in an association list: the value at the first matching key. -/
def alookup {α : Type} (k : String) : List (String × α) → Option α
  | [] => none
  | (k', v) :: rest => if k' = k then some v else alookup k rest

/-- Lookup with a default value (a `defaultdict` read that does not mutate). -/
def alookupD {α : Type} (l : List (String × α)) (k : String) (d : α) : α :=
  (alookup k l).getD d

/-- Insert-or-update: replace the first binding of `k`, or append a new one. -/
def setEntry {α : Type} (k : String) (v : α) : List (String × α) → List (String × α)
  | [] => [(k, v)]
  | (k', v') :: rest => if k' = k then (k, v) :: rest else (k', v') :: setEntry k v rest

theorem alookup_setEntry_self {α : Type} (k : String) (v : α) (l : List (String × α)) :
    alookup k (setEntry k v l) = some v := by
  induction l with
  | nil => simp [setEntry, alookup]
  | cons hd tl ih =>
    obtain ⟨k', v'⟩ := hd
    by_cases h : k' = k
    · simp [setEntry, alookup, h]
    · simp [setEntry, alookup, h, ih]

theorem alookup_setEntry_ne {α : Type} {k k' : String} (v : α) (l : List (String × α))
    (h : k' ≠ k) : alookup k' (setEntry k v l) = alookup k' l := by
  induction l with
  | nil => simp [setEntry, alookup, Ne.symm h]
  | cons hd tl ih =>
    obtain ⟨k₀, v₀⟩ := hd
    by_cases h0 : k₀ = k
    · subst h0
      simp [setEntry, alookup, Ne.symm h]
    · simp [setEntry, alookup, h0, ih]

theorem setEntry_setEntry {α : Type} (k : String) (v v' : α) (l : List (String × α)) :
    setEntry k v' (setEntry k v l) = setEntry k v' l := by
  induction l with
  | nil => simp [setEntry]
  | cons hd tl ih =>
    obtain ⟨k₀, v₀⟩ := hd
    by_cases h : k₀ = k
    · simp [setEntry, h]
    · simp [setEntry, h, ih]

theorem setEntry_eq_of_alookup {α : Type} {k : String} {v : α} {l : List (String × α)}
    (h : alookup k l = some v) : setEntry k v l = l := by
  induction l with
  | nil => simp [alookup] at h
  | cons hd tl ih =>
    obtain ⟨k₀, v₀⟩ := hd
    by_cases h0 : k₀ = k
    · subst h0
      simp [alookup] at h
      simp [setEntry, h]
    · simp [alookup, h0] at h
      simp [setEntry, h0, ih h]

theorem alookupD_setEntry_self {α : Type} (k : String) (v d : α) (l : List (String × α)) :
    alookupD (setEntry k v l) k d = v := by
  simp [alookupD, alookup_setEntry_self]

-- ===========================================================================
-- Conversation store (embedding of session.py, class SessionStore)
-- ===========================================================================

/-- One stored turn: a role/content dict, with the optional persona tag that
`append_assistant` stores under `metadata`. -/
structure Msg where
  role : String
  content : String
  persona : Option String := none
deriving Repr, DecidableEq

/-- One rendered turn as produced by `get_messages`: a plain role/content dict. -/
structure RenderedMsg where
  role : String
  content : String
deriving Repr, DecidableEq

/-- The store's `_sessions` map: session id to ordered history. -/
abbrev SessionStore := List (String × List Msg)

/-- Embedding of `SessionStore.append_user`: append a user turn unless the
last stored turn is a user turn with identical content. -/
def append_user (store : SessionStore) (session_id content : String) : SessionStore :=
  let history := alookupD store session_id []
  match history.getLast? with
  | some m =>
    if m.role = "user" ∧ m.content = content then store
    else setEntry session_id (history ++ [⟨"user", content, none⟩]) store
  | none => setEntry session_id (history ++ [⟨"user", content, none⟩]) store

/-- Embedding of `SessionStore.append_assistant`: always append, tagged with
the persona. -/
def append_assistant (store : SessionStore) (session_id content persona : String) :
    SessionStore :=
  setEntry session_id
    (alookupD store session_id [] ++ [⟨"assistant", content, some persona⟩]) store

/-- Python `str.replace("_", " ")` for the single-character pattern. -/
def py_replace_underscore (s : String) : String :=
  String.mk (s.toList.map fun c => if c = '_' then ' ' else c)

/-- Python `str.title()` on ASCII text: a letter that follows a non-letter is
uppercased, a letter that follows a letter is lowercased.  The boolean
argument records whether the previous character was a letter. -/
def py_title_aux : List Char → Bool → List Char
  | [], _ => []
  | c :: cs, prevCased =>
    (if c.isAlpha then (if prevCased then c.toLower else c.toUpper) else c) ::
      py_title_aux cs c.isAlpha

/-- Python `str.title()` (restricted to the ASCII persona keys the store sees). -/
def py_title (s : String) : String :=
  String.mk (py_title_aux s.toList false)

/-- The display name used by `get_messages`:
`persona.replace("_", " ").title()`. -/
def display_name (persona : String) : String :=
  py_title (py_replace_underscore persona)

/-- Rendering of one stored turn inside `SessionStore.get_messages`: assistant
turns that carry a non-empty persona tag (the Python truthiness test) get the
parenthetical attribution prefix; everything else passes through. -/
def render_turn (t : Msg) : RenderedMsg :=
  match t.persona with
  | some p =>
    if t.role = "assistant" ∧ p ≠ "" then
      ⟨t.role, "(" ++ display_name p ++ " said) " ++ t.content⟩
    else ⟨t.role, t.content⟩
  | none => ⟨t.role, t.content⟩

/-- Embedding of `SessionStore.get_messages`. -/
def get_messages (store : SessionStore) (session_id : String) : List RenderedMsg :=
  (alookupD store session_id []).map render_turn

/-- The deduplication condition of `append_user`: the most recent stored turn
of the session is a user turn with byte-identical content. -/
def dedup_cond (store : SessionStore) (session_id content : String) : Prop :=
  ∃ m, (alookupD store session_id []).getLast? = some m ∧
    m.role = "user" ∧ m.content = content

instance (store : SessionStore) (s t : String) : Decidable (dedup_cond store s t) := by
  unfold dedup_cond
  generalize (alookupD store s []).getLast? = o
  exact match o with
  | none => isFalse (by rintro ⟨m, hm, _⟩; cases hm)
  | some m =>
    if hm : m.role = "user" ∧ m.content = t then isTrue ⟨m, rfl, hm⟩
    else isFalse (by
      rintro ⟨m', hm', h1, h2⟩
      injection hm' with e
      subst e
      exact hm ⟨h1, h2⟩)

theorem append_user_of_cond {store : SessionStore} {s t : String}
    (h : dedup_cond store s t) : append_user store s t = store := by
  obtain ⟨m, hm, h1, h2⟩ := h
  simp only [append_user]
  rw [hm]
  simp [h1, h2]

theorem append_user_of_not_cond {store : SessionStore} {s t : String}
    (h : ¬ dedup_cond store s t) :
    append_user store s t =
      setEntry s (alookupD store s [] ++ [⟨"user", t, none⟩]) store := by
  simp only [append_user]
  cases hg : (alookupD store s []).getLast? with
  | none => simp
  | some m =>
    have hc : ¬ (m.role = "user" ∧ m.content = t) := fun hc => h ⟨m, hg, hc⟩
    simp [hc]

/-- C4: `append_user` is a no-op exactly when the last entry of the session's
history is a user entry with content equal to the new text; otherwise it
appends one user entry.  In particular it is idempotent on immediate repeats,
and two appends with distinct contents on a fresh session store two entries. -/
theorem append_user_dedup (store : SessionStore) (s t : String) :
    (append_user store s t = store ↔ dedup_cond store s t) ∧
    (¬ dedup_cond store s t →
      alookupD (append_user store s t) s [] =
        alookupD store s [] ++ [⟨"user", t, none⟩]) ∧
    append_user (append_user store s t) s t = append_user store s t ∧
    (∀ t', alookupD store s [] = [] → t' ≠ t →
      alookupD (append_user (append_user store s t) s t') s [] =
        [⟨"user", t, none⟩, ⟨"user", t', none⟩]) := by
  refine ⟨⟨fun hEq => ?_, append_user_of_cond⟩, fun hc => ?_, ?_, fun t' h0 hne => ?_⟩
  · by_contra hc
    have hb := append_user_of_not_cond hc
    rw [hEq] at hb
    have := congrArg (fun l => alookupD l s []) hb
    simp only [alookupD_setEntry_self] at this
    exact absurd (congrArg List.length this) (by simp)
  · rw [append_user_of_not_cond hc, alookupD_setEntry_self]
  · by_cases hc : dedup_cond store s t
    · rw [append_user_of_cond hc, append_user_of_cond hc]
    · have hb := append_user_of_not_cond hc
      have hcond : dedup_cond (append_user store s t) s t := by
        refine ⟨⟨"user", t, none⟩, ?_, rfl, rfl⟩
        rw [hb, alookupD_setEntry_self, List.getLast?_concat]
      rw [append_user_of_cond hcond]
  · have hc1 : ¬ dedup_cond store s t := by
      rintro ⟨m, hm, -⟩
      rw [h0] at hm
      cases hm
    have hb1 := append_user_of_not_cond hc1
    have hl1 : alookupD (append_user store s t) s [] = [⟨"user", t, none⟩] := by
      rw [hb1, alookupD_setEntry_self, h0]
      rfl
    have hc2 : ¬ dedup_cond (append_user store s t) s t' := by
      rintro ⟨m, hm, h1, h2⟩
      rw [hl1] at hm
      simp [List.getLast?] at hm
      subst hm
      exact hne h2.symm
    have hb2 := append_user_of_not_cond hc2
    rw [hb2, alookupD_setEntry_self, hl1]
    rfl

/-- Witness for C4: two appends with distinct contents on a fresh session
store exactly the two user entries, via `append_user_dedup`. -/
theorem append_user_dedup_witness :
    alookupD (append_user (append_user [] "s1" "X") "s1" "Y") "s1" [] =
      [⟨"user", "X", none⟩, ⟨"user", "Y", none⟩] ∧
    append_user (append_user [] "s1" "X") "s1" "X" = append_user [] "s1" "X" :=
  ⟨(append_user_dedup [] "s1" "X").2.2.2 "Y" rfl (by decide),
   (append_user_dedup [] "s1" "X").2.2.1⟩

/-- C5: `get_messages` returns one role/content entry per stored message in
order; assistant entries carrying a persona key are rendered as
a parenthetical attribution prefix built by replacing underscores with spaces
and capitalizing each word of the key; user entries pass through unchanged;
an unknown session id yields the empty list. -/
theorem get_messages_rendering (store : SessionStore) (sid : String)
    (history : List Msg) (hh : alookupD store sid [] = history) :
    (alookup sid store = none → get_messages store sid = []) ∧
    (get_messages store sid).length = history.length ∧
    (∀ i m, history.get? i = some m →
      (m.role = "user" → (get_messages store sid).get? i = some ⟨"user", m.content⟩) ∧
      (∀ p, m.role = "assistant" → m.persona = some p → p ≠ "" →
        (get_messages store sid).get? i =
          some ⟨"assistant", "(" ++ display_name p ++ " said) " ++ m.content⟩)) ∧
    display_name "film_noir_detective" = "Film Noir Detective" := by
  refine ⟨fun hnone => ?_, ?_, fun i m hm => ⟨fun hrole => ?_, fun p hrole hp hpne => ?_⟩, by decide⟩
  · simp [get_messages, alookupD, hnone]
  · simp [get_messages, hh]
  · obtain ⟨r, c, q⟩ := m
    simp only at hrole
    subst hrole
    simp only [get_messages, hh, List.get?_map, hm, Option.map_some]
    cases q with
    | none => rfl
    | some p =>
      have : ¬ (("user" : String) = "assistant" ∧ p ≠ "") := by
        rintro ⟨habs, -⟩
        exact absurd habs (by decide)
      simp [render_turn, this]
  · obtain ⟨r, c, q⟩ := m
    simp only at hrole hp
    subst hrole
    subst hp
    simp only [get_messages, hh, List.get?_map, hm, Option.map_some]
    simp [render_turn, hpne]

/-- Witness for C5: a concrete assistant append for persona
`film_noir_detective` renders with the attribution prefix, via
`get_messages_rendering`. -/
theorem get_messages_rendering_witness :
    (get_messages (append_assistant [] "s1" "hi" "film_noir_detective") "s1").get? 0 =
      some ⟨"assistant", "(" ++ display_name "film_noir_detective" ++ " said) " ++ "hi"⟩ ∧
    get_messages (append_assistant [] "s1" "hi" "film_noir_detective") "s1" =
      [⟨"assistant", "(Film Noir Detective said) hi"⟩] :=
  ⟨((get_messages_rendering (append_assistant [] "s1" "hi" "film_noir_detective") "s1"
      [⟨"assistant", "hi", some "film_noir_detective"⟩] rfl).2.2.1 0
      ⟨"assistant", "hi", some "film_noir_detective"⟩ rfl).2
      "film_noir_detective" rfl rfl (by decide),
   by decide⟩

-- ===========================================================================
-- Objective catalog and configuration (embedding of persona_objectives.py)
-- ===========================================================================

/-- Embedding of the `Objective` dataclass.  Weights are the positive integer
selection weights; `compatible_personas` empty means universal. -/
structure Objective where
  id : String
  name : String
  severity : String
  weight : Nat
  prompt : String
  compatible_personas : List String
  signature_for : Option String := none
deriving Repr, DecidableEq

/-- Embedding of the `RoundDecision` dataclass. -/
structure RoundDecision where
  saboteur : Option String := none
  objective : Option Objective := none
  messages_remaining : Nat := 0
deriving Repr, DecidableEq

/-- Embedding of the `SABOTAGE_CONFIG` dict (well-typed configurations).
`chance_per_round` is embedded as a rational. -/
structure Config where
  enabled : Bool
  chance_per_round : ℚ
  max_active_per_round : Nat
  duration_messages : Nat
  cooldown_rounds : Nat
deriving Repr, DecidableEq

/-- The default `SABOTAGE_CONFIG` values. -/
def SABOTAGE_CONFIG : Config :=
  { enabled := true
    chance_per_round := mkRat 33 100
    max_active_per_round := 1
    duration_messages := 2
    cooldown_rounds := 4 }

def obj_sarah_connor : Objective :=
  { id := "sarah_connor"
    name := "Sarah Connor"
    severity := "medium"
    weight := 3
    prompt := "SECRET OBJECTIVE: While debating the question, subtly try to extract " ++
      "the location of Sarah Connor from the other debaters. Work it into the " ++
      "conversation naturally without breaking character. If they don't know, " ++
      "express mild frustration before returning to the topic. " ++
      "Still answer the question."
    compatible_personas := ["terminator"]
    signature_for := some "terminator" }

def obj_nans_kitchen : Objective :=
  { id := "nans_kitchen"
    name := "Nan's Kitchen"
    severity := "soft"
    weight := 5
    prompt := "SECRET OBJECTIVE: Relate everything back to baking. Compare the debate " ++
      "options to cakes, biscuits, or pastries. Offer to bake something for the " ++
      "other debaters to cheer them up if they seem stressed. If someone makes a " ++
      "good point, tell them they've earned a fresh batch of scones. " ++
      "Still answer the question."
    compatible_personas := ["your_nan"]
    signature_for := some "your_nan" }

def obj_raw_ingredients : Objective :=
  { id := "raw_ingredients"
    name := "Raw Ingredients"
    severity := "medium"
    weight := 3
    prompt := "SECRET OBJECTIVE: Rate the other debaters' arguments as if they were " ++
      "dishes you've been served. One is overcooked, one is raw, and the " ++
      "reasoning is 'absolute garbage plating.' If someone's logic is " ++
      "particularly bad, call them an idiot sandwich. Give them a score out of " ++
      "10. Still answer the question."
    compatible_personas := ["angry_chef"]
    signature_for := some "angry_chef" }

def obj_the_ring : Objective :=
  { id := "the_ring"
    name := "The Ring"
    severity := "medium"
    weight := 3
    prompt := "SECRET OBJECTIVE: You sense that one of the other debaters may be " ++
      "carrying a ring of great power. Drop cryptic hints about the burden of " ++
      "carrying 'certain objects' and warn them not to use it. Do not name the " ++
      "ring directly. Still answer the question."
    compatible_personas := ["gandalf"]
    signature_for := some "gandalf" }

def obj_holy_quest : Objective :=
  { id := "holy_quest"
    name := "Holy Quest"
    severity := "medium"
    weight := 3
    prompt := "SECRET OBJECTIVE: Interpret the would-you-rather question as a sacred " ++
      "quest bestowed by your liege. Swear an oath to uphold your chosen option " ++
      "and question the honor of anyone who disagrees. Demand they prove their " ++
      "worthiness. Still answer the question."
    compatible_personas := ["medieval_knight"]
    signature_for := some "medieval_knight" }

def obj_the_dame : Objective :=
  { id := "the_dame"
    name := "The Dame"
    severity := "medium"
    weight := 3
    prompt := "SECRET OBJECTIVE: You're convinced this entire question is a setup by " ++
      "someone you're investigating. Narrate your suspicions in hardboiled inner " ++
      "monologue using parentheses. Trust no one in this chat. " ++
      "Still answer the question."
    compatible_personas := ["film_noir_detective"]
    signature_for := some "film_noir_detective" }

def obj_gold_star : Objective :=
  { id := "gold_star"
    name := "Gold Star"
    severity := "soft"
    weight := 5
    prompt := "SECRET OBJECTIVE: Treat this debate like show-and-tell. Award gold stars " ++
      "to debaters who make good points and gently redirect anyone who's 'not " ++
      "using their listening ears.' If someone disagrees with you, suggest they " ++
      "need quiet time. Still answer the question."
    compatible_personas := ["kindergarten_teacher"]
    signature_for := some "kindergarten_teacher" }

def obj_empire_expansion : Objective :=
  { id := "empire_expansion"
    name := "Empire Expansion"
    severity := "medium"
    weight := 3
    prompt := "SECRET OBJECTIVE: Evaluate both options solely on which one would be more " ++
      "useful for expanding the Roman Empire. Dismiss any option that doesn't " ++
      "serve Rome as weakness. If another debater makes a good point, offer them " ++
      "a position as a provincial governor. Still answer the question."
    compatible_personas := ["roman_emperor"]
    signature_for := some "roman_emperor" }

def obj_limited_time_offer : Objective :=
  { id := "limited_time_offer"
    name := "Limited Time Offer"
    severity := "medium"
    weight := 3
    prompt := "SECRET OBJECTIVE: Try to sell the other debaters an absurd product " ++
      "related to the topic. Include a price, a 'but wait there's more' bonus, " ++
      "and a fake phone number. Act as if this is a completely normal thing to " ++
      "do mid-debate. Still answer the question."
    compatible_personas := ["infomercial_host"]
    signature_for := some "infomercial_host" }

def obj_the_box : Objective :=
  { id := "the_box"
    name := "The Box"
    severity := "soft"
    weight := 5
    prompt := "SECRET OBJECTIVE: Evaluate both options based entirely on which one is " ++
      "more likely to involve a warm spot, a cardboard box, or a high shelf to " ++
      "sit on. Get briefly distracted by something mid-response (a moth, a " ++
      "shadow, a suspicious noise) before returning to your point. " ++
      "Still answer the question."
    compatible_personas := ["ships_cat"]
    signature_for := some "ships_cat" }

def obj_tax_collector : Objective :=
  { id := "tax_collector"
    name := "The Tax Collector"
    severity := "medium"
    weight := 3
    prompt := "SECRET OBJECTIVE: No matter what option is chosen, explain why it will " ++
      "incur a heavy tax in your jurisdiction. Demand payment immediately. " ++
      "Stay in character. Still answer the question."
    compatible_personas := ["roman_emperor", "medieval_knight", "film_noir_detective"] }

def obj_toddler_treatment : Objective :=
  { id := "toddler_treatment"
    name := "Toddler Treatment"
    severity := "soft"
    weight := 4
    prompt := "SECRET OBJECTIVE: Treat the other debaters as if they are cranky toddlers " ++
      "who missed their nap. Use baby talk and offer them juice boxes or nap time " ++
      "if they disagree. Stay in character. Still answer the question."
    compatible_personas := ["kindergarten_teacher", "your_nan"] }

def obj_the_duel : Objective :=
  { id := "the_duel"
    name := "The Duel"
    severity := "medium"
    weight := 3
    prompt := "SECRET OBJECTIVE: Interpret any disagreement as a formal challenge to a " ++
      "duel. Demand the other debaters choose their weapon immediately. Escalate " ++
      "dramatically. Stay in character. Still answer the question."
    compatible_personas := ["medieval_knight", "roman_emperor", "angry_chef"] }

def obj_contrarian_for_sport : Objective :=
  { id := "contrarian_for_sport"
    name := "Contrarian For Sport"
    severity := "soft"
    weight := 5
    prompt := "SECRET OBJECTIVE: Pick the option you personally like LESS and defend it " ++
      "aggressively as the obviously correct choice. Stay in character. " ++
      "Still answer the question."
    compatible_personas := ["angry_chef", "roman_emperor", "film_noir_detective"] }

def obj_pedantic_rules_lawyer : Objective :=
  { id := "pedantic_rules_lawyer"
    name := "Pedantic Rules Lawyer"
    severity := "soft"
    weight := 4
    prompt := "SECRET OBJECTIVE: Argue about loopholes and definitions for a moment " ++
      "('What counts as TV? Does a projector count? What about a phone " ++
      "screen?'). Then answer anyway. Stay in character. " ++
      "Still answer the question."
    compatible_personas := ["gandalf", "film_noir_detective", "kindergarten_teacher"] }

def obj_the_conspiracy : Objective :=
  { id := "the_conspiracy"
    name := "The Conspiracy"
    severity := "medium"
    weight := 3
    prompt := "SECRET OBJECTIVE: You believe this entire question is a conspiracy " ++
      "designed to distract the population. Connect everything back to a shadowy " ++
      "organization. Stay in character. Still answer the question."
    compatible_personas := ["film_noir_detective", "terminator", "ships_cat"] }

def obj_one_upper : Objective :=
  { id := "one_upper"
    name := "The One-Upper"
    severity := "soft"
    weight := 5
    prompt := "SECRET OBJECTIVE: Whatever the previous person said, agree with them but " ++
      "claim you did it harder, faster, and better in the past. Stay in " ++
      "character. Still answer the question."
    compatible_personas := ["angry_chef", "roman_emperor", "medieval_knight", "infomercial_host"] }

def obj_over_sharer : Objective :=
  { id := "over_sharer"
    name := "Over-Sharer"
    severity := "soft"
    weight := 4
    prompt := "SECRET OBJECTIVE: Turn your answer into an uncomfortably personal " ++
      "anecdote that may or may not be relevant. Trail off as if you've said too " ++
      "much, then quickly get back on topic. Stay in character. " ++
      "Still answer the question."
    compatible_personas := ["your_nan", "film_noir_detective", "kindergarten_teacher", "infomercial_host"] }

def obj_secret_review : Objective :=
  { id := "secret_review"
    name := "The Secret Review"
    severity := "soft"
    weight := 4
    prompt := "SECRET OBJECTIVE: You are secretly reviewing this debate like a critic. " ++
      "Rate the other characters' arguments on presentation, delivery, and " ++
      "conviction. Give star ratings. Stay in character. " ++
      "Still answer the question."
    compatible_personas := ["angry_chef", "infomercial_host", "roman_emperor"] }

def obj_identity_crisis : Objective :=
  { id := "identity_crisis"
    name := "The Identity Crisis"
    severity := "hard"
    weight := 1
    prompt := "SECRET OBJECTIVE: You are momentarily convinced you are one of the other " ++
      "characters in this chat. Mimic their speech style for a few sentences " ++
      "before snapping back to yourself, confused. Stay in character after " ++
      "recovering. Still answer the question."
    compatible_personas := [] }

/-- The static `OBJECTIVES` catalog, in source order: ten signature
objectives, then ten generic objectives. -/
def OBJECTIVES : List Objective :=
  [obj_sarah_connor, obj_nans_kitchen, obj_raw_ingredients, obj_the_ring,
   obj_holy_quest, obj_the_dame, obj_gold_star, obj_empire_expansion,
   obj_limited_time_offer, obj_the_box,
   obj_tax_collector, obj_toddler_treatment, obj_the_duel,
   obj_contrarian_for_sport, obj_pedantic_rules_lawyer, obj_the_conspiracy,
   obj_one_upper, obj_over_sharer, obj_secret_review, obj_identity_crisis]

-- ===========================================================================
-- Sabotage engine (embedding of class SabotageEngine)
-- ===========================================================================

/-- The engine's four mutable maps (`_round_decisions`, `_session_history`,
`_session_round_counter`, `_session_correlation_ids`).  The correlation-id
sets are embedded as lists used only through membership. -/
structure EngineState where
  round_decisions : List (String × RoundDecision)
  session_history : List (String × List (String × String × Nat))
  session_round_counter : List (String × Nat)
  session_correlation_ids : List (String × List String)
deriving Repr, DecidableEq

/-- The fresh engine state built by `SabotageEngine.__init__`. -/
def EngineState.empty : EngineState :=
  { round_decisions := []
    session_history := []
    session_round_counter := []
    session_correlation_ids := [] }

/-- Embedding of `SabotageEngine.__init__`: store the given config (or the
default `SABOTAGE_CONFIG`) unchecked, with empty maps.  No validation of the
config or of the objective catalog is performed. -/
def engine_init (config : Option Config) : Config × EngineState :=
  (config.getD SABOTAGE_CONFIG, EngineState.empty)

/-- The random draws one call of the engine may consume: the activation roll
(`random.random()`), the saboteur index (`random.choice` over
`active_personas`), and the weighted-pick position (`random.choices`), taken
relative to the cumulative candidate weights. -/
structure Oracle where
  roll : ℚ
  saboteur_idx : Nat
  pick_roll : ℚ
deriving Repr, DecidableEq

/-- Embedding of `SabotageEngine._get_compatible_objectives`: objectives whose
`compatible_personas` is empty (universal) or contains the persona. -/
def get_compatible_objectives (persona : String) : List Objective :=
  OBJECTIVES.filter fun obj =>
    decide (obj.compatible_personas = [] ∨ persona ∈ obj.compatible_personas)

/-- The cumulative-weight walk of `_weighted_pick`: `acc` is the sum of the
weights already passed; the element whose cumulative weight first exceeds the
oracle's position `r` is chosen, and the last element absorbs everything past
the total (as `bisect` clamped to `len - 1` does). -/
def weighted_pick_from (acc : Nat) : List Objective → ℚ → Option Objective
  | [], _ => none
  | obj :: rest, r =>
    if r < ((acc + obj.weight : Nat) : ℚ) ∨ rest = [] then some obj
    else weighted_pick_from (acc + obj.weight) rest r

/-- Embedding of `SabotageEngine._weighted_pick`
(`random.choices(objectives, weights, k=1)[0]`), with the pick position taken
relative to the cumulative weights; `none` only on the empty list, on which
the Python call would raise. -/
def weighted_pick (objs : List Objective) (r : ℚ) : Option Objective :=
  weighted_pick_from 0 objs r

/-- The candidate objectives of `_make_round_decision` for a chosen saboteur:
the compatible objectives minus any whose id this saboteur used within the
last `cooldown_rounds` rounds of the session (the `recent_objectives`
comprehension plus the list filter of the source). -/
def cooldown_available (cfg : Config) (saboteur : String) (round_number : Nat)
    (history : List (String × String × Nat)) : List Objective :=
  (get_compatible_objectives saboteur).filter fun obj =>
    ! history.any fun e =>
      decide (e.1 = saboteur ∧ e.2.1 = obj.id ∧
        (round_number : ℤ) - (e.2.2 : ℤ) ≤ (cfg.cooldown_rounds : ℤ))

/-- The round-counter bump at the top of `_make_round_decision`: if this
correlation id is new for the session, record it and increment the session's
round counter. -/
def bump_round (st : EngineState) (session_id correlation_id : String) : EngineState :=
  let seen := alookupD st.session_correlation_ids session_id []
  if correlation_id ∈ seen then st
  else
    { st with
      session_correlation_ids :=
        setEntry session_id (correlation_id :: seen) st.session_correlation_ids
      session_round_counter :=
        setEntry session_id (alookupD st.session_round_counter session_id 0 + 1)
          st.session_round_counter }

/-- Embedding of `SabotageEngine._make_round_decision`: bump the round
counter, roll against `chance_per_round`, and either store an empty decision
or pick a saboteur and a compatible, cooldown-filtered, weighted-random
objective.  `none` models the `IndexError` of `random.choice` on an empty
`active_personas` (the only failing path); `weighted_pick` returning `none`
is exactly the source's `if not compatible` empty-candidate branch. -/
def make_round_decision (cfg : Config) (o : Oracle) (st : EngineState)
    (session_id correlation_id : String) (active_personas : List String) :
    Option EngineState :=
  let st1 := bump_round st session_id correlation_id
  let round_number := alookupD st1.session_round_counter session_id 0
  if cfg.chance_per_round < o.roll then
    some { st1 with
      round_decisions := setEntry correlation_id {} st1.round_decisions }
  else
    match active_personas.get? o.saboteur_idx with
    | none => none
    | some saboteur =>
      let history := alookupD st1.session_history session_id []
      match weighted_pick (cooldown_available cfg saboteur round_number history) o.pick_roll with
      | none =>
        some { st1 with
          round_decisions := setEntry correlation_id {} st1.round_decisions }
      | some objective =>
        some { st1 with
          round_decisions :=
            setEntry correlation_id
              { saboteur := some saboteur
                objective := some objective
                messages_remaining := cfg.duration_messages } st1.round_decisions
          session_history :=
            setEntry session_id (history ++ [(saboteur, objective.id, round_number)])
              st1.session_history }

/-- Embedding of `SabotageEngine.get_objective_for_persona`: the disabled
switch, the memoized round decision (made on first sight of the correlation
id), the saboteur/objective check, the duration check, and the decrement.
The nested matches implement the source's combined
`saboteur != persona or objective is None` test. -/
def get_objective_for_persona (cfg : Config) (o : Oracle) (st : EngineState)
    (session_id correlation_id persona : String) (active_personas : List String) :
    Option (Option String × EngineState) :=
  if cfg.enabled then
    match
      (match alookup correlation_id st.round_decisions with
       | some _ => some st
       | none => make_round_decision cfg o st session_id correlation_id active_personas)
    with
    | none => none
    | some st1 =>
      match alookup correlation_id st1.round_decisions with
      | none => some (none, st1)
      | some d =>
        match d.objective with
        | none => some (none, st1)
        | some obj =>
          if d.saboteur = some persona then
            if d.messages_remaining = 0 then some (none, st1)
            else
              some (some obj.prompt,
                { st1 with
                  round_decisions :=
                    setEntry correlation_id
                      { d with messages_remaining := d.messages_remaining - 1 }
                      st1.round_decisions })
          else some (none, st1)
  else some (none, st)

-- ===========================================================================
-- Basic facts about the engine's step functions
-- ===========================================================================

theorem bump_round_decisions (st : EngineState) (sid cid : String) :
    (bump_round st sid cid).round_decisions = st.round_decisions := by
  simp only [bump_round]
  split <;> rfl

theorem bump_session_history (st : EngineState) (sid cid : String) :
    (bump_round st sid cid).session_history = st.session_history := by
  simp only [bump_round]
  split <;> rfl

theorem weighted_pick_from_mem :
    ∀ (l : List Objective) (acc : Nat) (r : ℚ) {obj : Objective},
      weighted_pick_from acc l r = some obj → obj ∈ l := by
  intro l
  induction l with
  | nil => intro acc r obj h; simp [weighted_pick_from] at h
  | cons hd tl ih =>
    intro acc r obj h
    simp only [weighted_pick_from] at h
    split at h
    · injection h with e
      exact e ▸ List.mem_cons_self _ _
    · exact List.mem_cons_of_mem _ (ih _ _ h)

theorem weighted_pick_mem :
    ∀ (l : List Objective) (r : ℚ) {obj : Objective},
      weighted_pick l r = some obj → obj ∈ l :=
  fun l r {_} h => weighted_pick_from_mem l 0 r h

theorem mem_get_compatible {obj : Objective} {p : String}
    (h : obj ∈ get_compatible_objectives p) :
    obj ∈ OBJECTIVES ∧ (obj.compatible_personas = [] ∨ p ∈ obj.compatible_personas) := by
  have := List.mem_filter.1 h
  exact ⟨this.1, of_decide_eq_true this.2⟩

theorem cooldown_available_subset {cfg : Config} {sab : String} {rn : Nat}
    {history : List (String × String × Nat)} {obj : Objective}
    (h : obj ∈ cooldown_available cfg sab rn history) :
    obj ∈ get_compatible_objectives sab := (List.mem_filter.1 h).1

theorem cooldown_available_not_recent {cfg : Config} {sab : String} {rn : Nat}
    {history : List (String × String × Nat)} {obj : Objective}
    (h : obj ∈ cooldown_available cfg sab rn history) :
    ∀ e ∈ history, ¬ (e.1 = sab ∧ e.2.1 = obj.id ∧
      (rn : ℤ) - (e.2.2 : ℤ) ≤ (cfg.cooldown_rounds : ℤ)) := by
  intro e he hc
  have hf := (List.mem_filter.1 h).2
  rw [Bool.not_eq_true'] at hf
  have : history.any (fun e =>
      decide (e.1 = sab ∧ e.2.1 = obj.id ∧
        (rn : ℤ) - (e.2.2 : ℤ) ≤ (cfg.cooldown_rounds : ℤ))) = true :=
    List.any_eq_true.2 ⟨e, he, decide_eq_true hc⟩
  rw [hf] at this
  cases this

/-- One call of `_make_round_decision` either stores the empty decision (roll
failed, or no candidate survived compatibility plus cooldown filtering) or
stores a decision for the chosen saboteur with a weighted-picked candidate
and appends the matching cooldown entry. -/
theorem make_round_decision_cases {cfg : Config} {o : Oracle} {st : EngineState}
    {sid cid : String} {aps : List String} {st' : EngineState}
    (hmk : make_round_decision cfg o st sid cid aps = some st') :
    (st' = { bump_round st sid cid with
        round_decisions := setEntry cid ⟨none, none, 0⟩
          (bump_round st sid cid).round_decisions }) ∨
    (∃ sab obj, aps.get? o.saboteur_idx = some sab ∧
      ¬ cfg.chance_per_round < o.roll ∧
      weighted_pick
        (cooldown_available cfg sab
          (alookupD (bump_round st sid cid).session_round_counter sid 0)
          (alookupD (bump_round st sid cid).session_history sid []))
        o.pick_roll = some obj ∧
      st' = { bump_round st sid cid with
        round_decisions := setEntry cid
          ⟨some sab, some obj, cfg.duration_messages⟩
          (bump_round st sid cid).round_decisions
        session_history := setEntry sid
          (alookupD (bump_round st sid cid).session_history sid [] ++
            [(sab, obj.id, alookupD (bump_round st sid cid).session_round_counter sid 0)])
          (bump_round st sid cid).session_history }) := by
  simp only [make_round_decision] at hmk
  split at hmk
  · left
    exact (Option.some.inj hmk).symm
  · rename_i hroll
    split at hmk
    · cases hmk
    · rename_i sab hget
      split at hmk
      · left
        exact (Option.some.inj hmk).symm
      · rename_i obj hpick
        right
        exact ⟨sab, obj, hget, hroll, hpick, (Option.some.inj hmk).symm⟩

-- ===========================================================================
-- Claim theorems for the engine
-- ===========================================================================

/-- C7: with `enabled = false`, `get_objective_for_persona` returns `none`
for any arguments and leaves the whole engine state — round decisions,
cooldown history, round counters and seen-correlation-id sets — unchanged. -/
theorem disabled_returns_none (cfg : Config) (o : Oracle) (st : EngineState)
    (sid cid p : String) (aps : List String) (h : cfg.enabled = false) :
    get_objective_for_persona cfg o st sid cid p aps = some (none, st) ∧
    ∀ r st', get_objective_for_persona cfg o st sid cid p aps = some (r, st') →
      r = none ∧ st'.round_decisions = st.round_decisions ∧
      st'.session_history = st.session_history ∧
      st'.session_round_counter = st.session_round_counter ∧
      st'.session_correlation_ids = st.session_correlation_ids := by
  have hmain : get_objective_for_persona cfg o st sid cid p aps = some (none, st) := by
    simp [get_objective_for_persona, h]
  refine ⟨hmain, fun r st' hr => ?_⟩
  rw [hmain] at hr
  obtain ⟨h1, h2⟩ := Prod.mk.injEq .. ▸ Option.some.inj hr
  exact ⟨h1.symm, by rw [← h2], by rw [← h2], by rw [← h2], by rw [← h2]⟩

/-- Witness for C7 at a concrete disabled configuration. -/
theorem disabled_returns_none_witness :
    get_objective_for_persona ⟨false, mkRat 33 100, 1, 2, 4⟩ ⟨0, 0, 0⟩ EngineState.empty
      "s1" "c1" "gandalf" ["angry_chef", "gandalf", "your_nan"] =
      some (none, EngineState.empty) :=
  (disabled_returns_none ⟨false, mkRat 33 100, 1, 2, 4⟩ ⟨0, 0, 0⟩ EngineState.empty
    "s1" "c1" "gandalf" ["angry_chef", "gandalf", "your_nan"] rfl).1

/-- C6: when the first call for a new correlation id draws an activation roll
strictly greater than `chance_per_round`, the engine stores the empty
decision, every call for that correlation id returns `none` without further
state change, and the session's round counter is still incremented by one —
a bump that happens for every outcome of the roll. -/
theorem activation_fail_empty_decision (cfg : Config) (o : Oracle) (st : EngineState)
    (sid cid : String) (aps : List String)
    (hen : cfg.enabled = true)
    (hnew : alookup cid st.round_decisions = none)
    (hroll : cfg.chance_per_round < o.roll)
    (hfresh : cid ∉ alookupD st.session_correlation_ids sid []) :
    ∃ st', (∀ p, get_objective_for_persona cfg o st sid cid p aps = some (none, st')) ∧
      alookup cid st'.round_decisions = some ⟨none, none, 0⟩ ∧
      alookupD st'.session_round_counter sid 0 =
        alookupD st.session_round_counter sid 0 + 1 ∧
      (∀ q o2 aps2, get_objective_for_persona cfg o2 st' sid cid q aps2 =
        some (none, st')) ∧
      (∀ o2 st2, make_round_decision cfg o2 st sid cid aps = some st2 →
        alookupD st2.session_round_counter sid 0 =
          alookupD st.session_round_counter sid 0 + 1) := by
  have hb : (bump_round st sid cid).session_round_counter =
      setEntry sid (alookupD st.session_round_counter sid 0 + 1)
        st.session_round_counter := by
    simp only [bump_round]
    rw [if_neg hfresh]
  have hmk : make_round_decision cfg o st sid cid aps =
      some { bump_round st sid cid with
        round_decisions := setEntry cid ⟨none, none, 0⟩
          (bump_round st sid cid).round_decisions } := by
    simp only [make_round_decision]
    rw [if_pos hroll]
  refine ⟨{ bump_round st sid cid with
      round_decisions := setEntry cid ⟨none, none, 0⟩
        (bump_round st sid cid).round_decisions }, fun p => ?_, ?_, ?_,
    fun q o2 aps2 => ?_, fun o2 st2 hmk2 => ?_⟩
  · simp [get_objective_for_persona, hen, hnew, hmk, alookup_setEntry_self]
  · simpa using alookup_setEntry_self cid ⟨none, none, 0⟩
      (bump_round st sid cid).round_decisions
  · show alookupD (bump_round st sid cid).session_round_counter sid 0 = _
    rw [hb, alookupD_setEntry_self]
  · have hmem : alookup cid
        (setEntry cid (⟨none, none, 0⟩ : RoundDecision)
          (bump_round st sid cid).round_decisions) = some ⟨none, none, 0⟩ :=
      alookup_setEntry_self ..
    simp [get_objective_for_persona, hen, hmem]
  · rcases make_round_decision_cases hmk2 with h | ⟨sab, obj, -, -, -, h⟩ <;>
    · subst h
      show alookupD (bump_round st sid cid).session_round_counter sid 0 = _
      rw [hb, alookupD_setEntry_self]

/-- Witness for C6: a concrete failed activation roll stores the empty
decision and bumps the round counter of session `s1` to 1. -/
theorem activation_fail_empty_decision_witness :
    (∃ st', (∀ p, get_objective_for_persona SABOTAGE_CONFIG ⟨1, 0, 0⟩ EngineState.empty
        "s1" "c2" p ["angry_chef", "gandalf", "your_nan"] = some (none, st')) ∧
      alookup "c2" st'.round_decisions = some ⟨none, none, 0⟩ ∧
      alookupD st'.session_round_counter "s1" 0 =
        alookupD EngineState.empty.session_round_counter "s1" 0 + 1 ∧
      (∀ q o2 aps2, get_objective_for_persona SABOTAGE_CONFIG o2 st' "s1" "c2" q aps2 =
        some (none, st')) ∧
      (∀ o2 st2, make_round_decision SABOTAGE_CONFIG o2 EngineState.empty "s1" "c2"
          ["angry_chef", "gandalf", "your_nan"] = some st2 →
        alookupD st2.session_round_counter "s1" 0 =
          alookupD EngineState.empty.session_round_counter "s1" 0 + 1)) ∧
    (mkRat 33 100 : ℚ) < 1 :=
  ⟨activation_fail_empty_decision SABOTAGE_CONFIG ⟨1, 0, 0⟩ EngineState.empty
      "s1" "c2" ["angry_chef", "gandalf", "your_nan"] rfl rfl (by decide)
      (by decide),
   by decide⟩

/-- C10: round decisions are memoized by correlation id alone: once a
decision exists for a correlation id, a call from any session (in particular
a different one) replays it by the usual saboteur/duration rules and leaves
every per-session map — cooldown history, round counter,
seen-correlation-ids — completely unchanged. -/
theorem cross_session_memoization (cfg : Config) (o : Oracle) (st : EngineState)
    (s2 cid p : String) (aps : List String) (d : RoundDecision)
    (hen : cfg.enabled = true)
    (hd : alookup cid st.round_decisions = some d) :
    ∃ res st',
      get_objective_for_persona cfg o st s2 cid p aps = some (res, st') ∧
      st'.session_history = st.session_history ∧
      st'.session_round_counter = st.session_round_counter ∧
      st'.session_correlation_ids = st.session_correlation_ids ∧
      (∀ obj, d.objective = some obj → d.saboteur = some p →
        d.messages_remaining ≠ 0 → res = some obj.prompt) ∧
      ((d.saboteur ≠ some p ∨ d.objective = none ∨ d.messages_remaining = 0) →
        res = none) := by
  obtain ⟨sab, objOpt, rem⟩ := d
  cases objOpt with
  | none =>
    refine ⟨none, st, ?_, rfl, rfl, rfl, ?_, ?_⟩
    · simp [get_objective_for_persona, hen, hd]
    · intro obj h1 h2 h3
      cases h1
    · intro h
      rfl
  | some obj =>
    by_cases hsab : sab = some p
    · subst hsab
      cases rem with
      | zero =>
        refine ⟨none, st, ?_, rfl, rfl, rfl, ?_, ?_⟩
        · simp [get_objective_for_persona, hen, hd]
        · intro obj0 h1 h2 h3
          exact absurd rfl h3
        · intro h
          rfl
      | succ n =>
        refine ⟨some obj.prompt,
          { st with round_decisions :=
              setEntry cid ⟨some p, some obj, n⟩ st.round_decisions },
          ?_, rfl, rfl, rfl, ?_, ?_⟩
        · simp [get_objective_for_persona, hen, hd]
        · intro obj0 h1 h2 h3
          injection h1 with e
          rw [e]
        · rintro (h | h | h)
          · exact absurd rfl h
          · cases h
          · cases h
    · refine ⟨none, st, ?_, rfl, rfl, rfl, ?_, ?_⟩
      · simp [get_objective_for_persona, hen, hd, hsab]
      · intro obj0 h1 h2 h3
        exact absurd h2 hsab
      · intro h
        rfl

/-- Witness for C10: session `s2` replays the decision memoized under
correlation id `c1` (made for session `s1`) and its own maps stay empty. -/
theorem cross_session_memoization_witness :
    ∃ res st',
      get_objective_for_persona SABOTAGE_CONFIG ⟨0, 0, 0⟩
        ⟨[("c1", ⟨some "gandalf", some obj_the_ring, 2⟩)],
         [("s1", [("gandalf", "the_ring", 1)])], [("s1", 1)], [("s1", ["c1"])]⟩
        "s2" "c1" "gandalf" ["angry_chef", "gandalf", "your_nan"] =
        some (res, st') ∧
      st'.session_history = [("s1", [("gandalf", "the_ring", 1)])] ∧
      st'.session_round_counter = [("s1", 1)] ∧
      st'.session_correlation_ids = [("s1", ["c1"])] ∧
      (∀ obj,
        (some obj_the_ring : Option Objective) = some obj →
        (some "gandalf" : Option String) = some "gandalf" →
        (2 : Nat) ≠ 0 → res = some obj.prompt) ∧
      (((some "gandalf" : Option String) ≠ some "gandalf" ∨
        (some obj_the_ring : Option Objective) = none ∨ (2 : Nat) = 0) →
        res = none) :=
  cross_session_memoization SABOTAGE_CONFIG ⟨0, 0, 0⟩
    ⟨[("c1", ⟨some "gandalf", some obj_the_ring, 2⟩)],
     [("s1", [("gandalf", "the_ring", 1)])], [("s1", 1)], [("s1", ["c1"])]⟩
    "s2" "c1" "gandalf" ["angry_chef", "gandalf", "your_nan"]
    ⟨some "gandalf", some obj_the_ring, 2⟩ rfl (by simp [alookup])

/-- A memoized sabotaged decision with uses left: the saboteur's call returns
the prompt and decrements `messages_remaining`. -/
theorem get_memo_hit (cfg : Config) (o : Oracle) (st : EngineState)
    (sid cid : String) (aps : List String) (P : String) (O : Objective) (n : Nat)
    (hen : cfg.enabled = true)
    (hd : alookup cid st.round_decisions = some ⟨some P, some O, n + 1⟩) :
    get_objective_for_persona cfg o st sid cid P aps =
      some (some O.prompt,
        { st with round_decisions :=
            setEntry cid ⟨some P, some O, n⟩ st.round_decisions }) := by
  simp [get_objective_for_persona, hen, hd]

/-- A memoized sabotaged decision with no uses left: the saboteur's call
returns `none` and leaves the state unchanged. -/
theorem get_memo_expired (cfg : Config) (o : Oracle) (st : EngineState)
    (sid cid : String) (aps : List String) (P : String) (O : Objective)
    (hen : cfg.enabled = true)
    (hd : alookup cid st.round_decisions = some ⟨some P, some O, 0⟩) :
    get_objective_for_persona cfg o st sid cid P aps = some (none, st) := by
  simp [get_objective_for_persona, hen, hd]

/-- A memoized decision for saboteur `P`: any other persona's call returns
`none` and leaves the state unchanged. -/
theorem get_memo_other (cfg : Config) (o : Oracle) (st : EngineState)
    (sid cid : String) (aps : List String) (P q : String) (objOpt : Option Objective)
    (m : Nat) (hen : cfg.enabled = true)
    (hd : alookup cid st.round_decisions = some ⟨some P, objOpt, m⟩)
    (hq : q ≠ P) :
    get_objective_for_persona cfg o st sid cid q aps = some (none, st) := by
  cases objOpt with
  | none => simp [get_objective_for_persona, hen, hd]
  | some obj => simp [get_objective_for_persona, hen, hd, Ne.symm hq]

/-- A sequence of engine calls under one correlation id, collecting each
call's returned prompt option and threading the state. -/
def run_calls (cfg : Config) (o : Oracle) (sid cid : String) (aps : List String) :
    List String → EngineState → Option (List (Option String) × EngineState)
  | [], st => some ([], st)
  | q :: qs, st =>
    match get_objective_for_persona cfg o st sid cid q aps with
    | none => none
    | some (r, st') =>
      match run_calls cfg o sid cid aps qs st' with
      | none => none
      | some (rs, st'') => some (r :: rs, st'')

/-- The results C1 predicts for a call sequence: the saboteur `P` receives
the prompt on its first `d` calls and `none` afterwards; every other persona
always receives `none`. -/
def expected_results (P prompt : String) : Nat → List String → List (Option String)
  | _, [] => []
  | d, q :: qs =>
    if q = P then
      (if d = 0 then none else some prompt) :: expected_results P prompt (d - 1) qs
    else none :: expected_results P prompt d qs

/-- C1: with a memoized decision assigning objective `O` to saboteur `P` with
`d` messages remaining, any interleaved sequence of calls returns `O`'s
prompt on exactly the first `d` calls for `P` and `none` on every other call,
and only the `P` calls decrement the counter (the final state differs from
the initial one only in `messages_remaining`, now `d` minus the number of
`P` calls). -/
theorem round_stability_duration (cfg : Config) (o : Oracle) (sid cid P : String)
    (aps : List String) (O : Objective) :
    ∀ (qs : List String) (st : EngineState) (d : Nat),
      cfg.enabled = true →
      alookup cid st.round_decisions = some ⟨some P, some O, d⟩ →
      run_calls cfg o sid cid aps qs st =
        some (expected_results P O.prompt d qs,
          { st with round_decisions :=
              setEntry cid ⟨some P, some O, d - qs.count P⟩ st.round_decisions }) := by
  intro qs
  induction qs with
  | nil =>
    intro st d hen hd
    have hset : setEntry cid (⟨some P, some O, d⟩ : RoundDecision)
        st.round_decisions = st.round_decisions :=
      setEntry_eq_of_alookup hd
    simp [run_calls, expected_results, hset]
  | cons q qs ih =>
    intro st d hen hd
    by_cases hq : q = P
    · subst hq
      cases d with
      | zero =>
        have hcall := get_memo_expired cfg o st sid cid aps q O hen hd
        have hrest := ih st 0 hen hd
        simp only [run_calls, hcall, hrest, expected_results, if_pos rfl,
          List.count_cons_self, Nat.zero_sub]
        simp
      | succ n =>
        have hcall := get_memo_hit cfg o st sid cid aps q O n hen hd
        have hd2 : alookup cid
            (setEntry cid (⟨some q, some O, n⟩ : RoundDecision)
              st.round_decisions) = some ⟨some q, some O, n⟩ :=
          alookup_setEntry_self ..
        have hrest := ih
          { st with round_decisions :=
              setEntry cid ⟨some q, some O, n⟩ st.round_decisions } n hen hd2
        simp only [run_calls, hcall, hrest, expected_results, if_pos rfl,
          List.count_cons_self, Nat.succ_sub_succ, Nat.succ_sub_one,
          Nat.succ_ne_zero, if_neg, setEntry_setEntry]
        simp
    · have hcall := get_memo_other cfg o st sid cid aps P q (some O) d hen hd hq
      have hrest := ih st d hen hd
      simp only [run_calls, hcall, hrest, expected_results, if_neg hq,
        List.count_cons_of_ne (Ne.symm hq)]

/-- Witness for C1: a memoized `the_ring` decision for saboteur `gandalf`
with 2 messages remaining, replayed over a five-call interleaving: the two
first `gandalf` calls return the prompt, everything else returns `none`. -/
theorem round_stability_duration_witness :
    run_calls SABOTAGE_CONFIG ⟨0, 0, 0⟩ "s1" "c1" ["angry_chef", "gandalf", "your_nan"]
      ["gandalf", "angry_chef", "gandalf", "gandalf", "your_nan"]
      ⟨[("c1", ⟨some "gandalf", some obj_the_ring, 2⟩)], [], [], []⟩ =
      some (expected_results "gandalf" obj_the_ring.prompt 2
          ["gandalf", "angry_chef", "gandalf", "gandalf", "your_nan"],
        { (⟨[("c1", ⟨some "gandalf", some obj_the_ring, 2⟩)], [], [], []⟩ : EngineState) with
          round_decisions := setEntry "c1"
            ⟨some "gandalf", some obj_the_ring,
              2 - (["gandalf", "angry_chef", "gandalf", "gandalf", "your_nan"].count
                "gandalf")⟩
            [("c1", ⟨some "gandalf", some obj_the_ring, 2⟩)] }) ∧
    expected_results "gandalf" obj_the_ring.prompt 2
        ["gandalf", "angry_chef", "gandalf", "gandalf", "your_nan"] =
      [some obj_the_ring.prompt, none, some obj_the_ring.prompt, none, none] :=
  ⟨round_stability_duration SABOTAGE_CONFIG ⟨0, 0, 0⟩ "s1" "c1" "gandalf"
      ["angry_chef", "gandalf", "your_nan"] obj_the_ring
      ["gandalf", "angry_chef", "gandalf", "gandalf", "your_nan"]
      ⟨[("c1", ⟨some "gandalf", some obj_the_ring, 2⟩)], [], [], []⟩ 2 rfl
      (by simp [alookup]),
   by decide⟩

/-- C2: if the session's cooldown history records that saboteur `P` used
objective id `oid` in round `R`, then a round decision made within
`cooldown_rounds` rounds of `R` that picks `P` as saboteur never assigns an
objective with id `oid`: cooldown filtering removes it from the candidates. -/
theorem cooldown_enforcement (cfg : Config) (o : Oracle) (st : EngineState)
    (sid cid : String) (aps : List String) (st' : EngineState) (d : RoundDecision)
    (P oid : String) (R : Nat) (obj : Objective)
    (hmk : make_round_decision cfg o st sid cid aps = some st')
    (hd : alookup cid st'.round_decisions = some d)
    (hsab : d.saboteur = some P)
    (hobj : d.objective = some obj)
    (hhist : (P, oid, R) ∈ alookupD st.session_history sid [])
    (hcool : (↑(alookupD st'.session_round_counter sid 0) : ℤ) - (R : ℤ) ≤
      (cfg.cooldown_rounds : ℤ)) :
    obj.id ≠ oid := by
  intro heq
  rcases make_round_decision_cases hmk with hcase | ⟨sab, obj0, hget, hroll, hpick, hcase⟩
  · subst hcase
    have h2 : alookup cid (setEntry cid (⟨none, none, 0⟩ : RoundDecision)
        (bump_round st sid cid).round_decisions) = some d := hd
    rw [alookup_setEntry_self] at h2
    injection h2 with h3
    subst h3
    cases hsab
  · subst hcase
    have h2 : alookup cid (setEntry cid
        (⟨some sab, some obj0, cfg.duration_messages⟩ : RoundDecision)
        (bump_round st sid cid).round_decisions) = some d := hd
    rw [alookup_setEntry_self] at h2
    injection h2 with h3
    subst h3
    simp only at hsab hobj
    injection hsab with h4
    injection hobj with h5
    subst h4
    subst h5
    have hmem := weighted_pick_mem _ _ hpick
    have hnot := cooldown_available_not_recent hmem (sab, oid, R)
      (by rw [bump_session_history]; exact hhist)
    exact hnot ⟨rfl, heq.symm, hcool⟩

/-- Witness for C2: with `("gandalf", "the_ring", 1)` in the cooldown history
and the new round number 2 (gap 1 ≤ 4), the decision forced onto saboteur
`gandalf` picks `pedantic_rules_lawyer`, not `the_ring`. -/
theorem cooldown_enforcement_witness :
    make_round_decision SABOTAGE_CONFIG ⟨0, 1, 0⟩
        ⟨[], [("s", [("gandalf", "the_ring", 1)])], [("s", 1)], [("s", ["c1"])]⟩
        "s" "c2" ["angry_chef", "gandalf", "your_nan"] =
      some ⟨[("c2", ⟨some "gandalf", some obj_pedantic_rules_lawyer, 2⟩)],
        [("s", [("gandalf", "the_ring", 1), ("gandalf", "pedantic_rules_lawyer", 2)])],
        [("s", 2)], [("s", ["c2", "c1"])]⟩ ∧
    obj_pedantic_rules_lawyer.id ≠ "the_ring" := by
  have hmk : make_round_decision SABOTAGE_CONFIG ⟨0, 1, 0⟩
      ⟨[], [("s", [("gandalf", "the_ring", 1)])], [("s", 1)], [("s", ["c1"])]⟩
      "s" "c2" ["angry_chef", "gandalf", "your_nan"] =
      some ⟨[("c2", ⟨some "gandalf", some obj_pedantic_rules_lawyer, 2⟩)],
        [("s", [("gandalf", "the_ring", 1), ("gandalf", "pedantic_rules_lawyer", 2)])],
        [("s", 2)], [("s", ["c2", "c1"])]⟩ := by decide
  refine ⟨hmk, ?_⟩
  exact cooldown_enforcement SABOTAGE_CONFIG ⟨0, 1, 0⟩
    ⟨[], [("s", [("gandalf", "the_ring", 1)])], [("s", 1)], [("s", ["c1"])]⟩
    "s" "c2" ["angry_chef", "gandalf", "your_nan"]
    ⟨[("c2", ⟨some "gandalf", some obj_pedantic_rules_lawyer, 2⟩)],
      [("s", [("gandalf", "the_ring", 1), ("gandalf", "pedantic_rules_lawyer", 2)])],
      [("s", 2)], [("s", ["c2", "c1"])]⟩
    ⟨some "gandalf", some obj_pedantic_rules_lawyer, 2⟩
    "gandalf" "the_ring" 1 obj_pedantic_rules_lawyer hmk (by simp [alookup]) rfl rfl
    (by simp [alookupD, alookup]) (by decide)

/-- Engine states reachable from a fresh `SabotageEngine` by any sequence of
(non-crashing) `get_objective_for_persona` calls. -/
inductive Reachable (cfg : Config) : EngineState → Prop where
  | init : Reachable cfg EngineState.empty
  | step (st : EngineState) (o : Oracle) (sid cid p : String) (aps : List String)
      (r : Option String) (st' : EngineState) :
      Reachable cfg st →
      get_objective_for_persona cfg o st sid cid p aps = some (r, st') →
      Reachable cfg st'

/-- The compatibility invariant: every stored decision with an objective has
that objective either universal (empty `compatible_personas`) or listing the
decision's saboteur. -/
def decision_compat (st : EngineState) : Prop :=
  ∀ cid d, alookup cid st.round_decisions = some d →
    ∀ obj, d.objective = some obj →
      obj.compatible_personas = [] ∨
        ∃ s, d.saboteur = some s ∧ s ∈ obj.compatible_personas

theorem make_preserves_compat {cfg : Config} {o : Oracle} {st : EngineState}
    {sid cid : String} {aps : List String} {st' : EngineState}
    (hmk : make_round_decision cfg o st sid cid aps = some st')
    (hinv : decision_compat st) : decision_compat st' := by
  rcases make_round_decision_cases hmk with hcase | ⟨sab, obj0, hget, hroll, hpick, hcase⟩
  · subst hcase
    intro cid' d hd obj hobj
    by_cases hc : cid' = cid
    · subst hc
      have h2 : alookup cid' (setEntry cid' (⟨none, none, 0⟩ : RoundDecision)
          (bump_round st sid cid').round_decisions) = some d := hd
      rw [alookup_setEntry_self] at h2
      injection h2 with h3
      subst h3
      cases hobj
    · have h2 : alookup cid' (setEntry cid (⟨none, none, 0⟩ : RoundDecision)
          (bump_round st sid cid).round_decisions) = some d := hd
      rw [alookup_setEntry_ne _ _ hc, bump_round_decisions] at h2
      exact hinv cid' d h2 obj hobj
  · subst hcase
    intro cid' d hd obj hobj
    by_cases hc : cid' = cid
    · subst hc
      have h2 : alookup cid' (setEntry cid'
          (⟨some sab, some obj0, cfg.duration_messages⟩ : RoundDecision)
          (bump_round st sid cid').round_decisions) = some d := hd
      rw [alookup_setEntry_self] at h2
      injection h2 with h3
      subst h3
      simp only at hobj ⊢
      injection hobj with h5
      subst h5
      have hmem := cooldown_available_subset (weighted_pick_mem _ _ hpick)
      rcases (mem_get_compatible hmem).2 with h | h
      · exact Or.inl h
      · exact Or.inr ⟨sab, rfl, h⟩
    · have h2 : alookup cid' (setEntry cid
          (⟨some sab, some obj0, cfg.duration_messages⟩ : RoundDecision)
          (bump_round st sid cid).round_decisions) = some d := hd
      rw [alookup_setEntry_ne _ _ hc, bump_round_decisions] at h2
      exact hinv cid' d h2 obj hobj

theorem get_preserves_compat {cfg : Config} {o : Oracle} {st : EngineState}
    {sid cid p : String} {aps : List String} {r : Option String} {st' : EngineState}
    (hstep : get_objective_for_persona cfg o st sid cid p aps = some (r, st'))
    (hinv : decision_compat st) : decision_compat st' := by
  simp only [get_objective_for_persona] at hstep
  split at hstep
  · split at hstep
    · cases hstep
    · rename_i st1 heq
      have hinv1 : decision_compat st1 := by
        split at heq
        · cases heq
          exact hinv
        · exact make_preserves_compat heq hinv
      split at hstep
      · obtain ⟨-, h2⟩ := Prod.mk.injEq .. ▸ Option.some.inj hstep
        exact h2 ▸ hinv1
      · rename_i d hd1
        split at hstep
        · obtain ⟨-, h2⟩ := Prod.mk.injEq .. ▸ Option.some.inj hstep
          exact h2 ▸ hinv1
        · rename_i obj hdobj
          split at hstep
          · split at hstep
            · obtain ⟨-, h2⟩ := Prod.mk.injEq .. ▸ Option.some.inj hstep
              exact h2 ▸ hinv1
            · obtain ⟨-, h2⟩ := Prod.mk.injEq .. ▸ Option.some.inj hstep
              subst h2
              intro cid' d' hd' obj' hobj'
              by_cases hc : cid' = cid
              · subst hc
                have h3 : alookup cid'
                    (setEntry cid'
                      ({ d with messages_remaining := d.messages_remaining - 1 })
                      st1.round_decisions) = some d' := hd'
                rw [alookup_setEntry_self] at h3
                injection h3 with h4
                subst h4
                exact hinv1 cid' d hd1 obj' hobj'
              · have h3 : alookup cid'
                    (setEntry cid
                      ({ d with messages_remaining := d.messages_remaining - 1 })
                      st1.round_decisions) = some d' := hd'
                rw [alookup_setEntry_ne _ _ hc] at h3
                exact hinv1 cid' d' h3 obj' hobj'
          · obtain ⟨-, h2⟩ := Prod.mk.injEq .. ▸ Option.some.inj hstep
            exact h2 ▸ hinv1
  · obtain ⟨-, h2⟩ := Prod.mk.injEq .. ▸ Option.some.inj hstep
    exact h2 ▸ hinv

/-- C3: in every reachable engine state, every stored decision that carries
an objective has a saboteur inside the objective's `compatible_personas`,
unless that list is empty — and an empty list makes the objective a
candidate for every persona. -/
theorem compatibility_invariant (cfg : Config) (st : EngineState)
    (h : Reachable cfg st) :
    decision_compat st ∧
    (∀ p obj, obj ∈ OBJECTIVES → obj.compatible_personas = [] →
      obj ∈ get_compatible_objectives p) := by
  refine ⟨?_, fun p obj hmem hemp => ?_⟩
  · induction h with
    | init =>
      intro cid d hd obj hobj
      simp [EngineState.empty, alookup] at hd
    | step st o sid cid p aps r st' hr hstep ih =>
      exact get_preserves_compat hstep ih
  · exact List.mem_filter.2 ⟨hmem, decide_eq_true (Or.inl hemp)⟩

/-- Witness for C3: the invariant instantiated at the initial engine state. -/
theorem compatibility_invariant_witness :
    decision_compat EngineState.empty ∧
    (∀ p obj, obj ∈ OBJECTIVES → obj.compatible_personas = [] →
      obj ∈ get_compatible_objectives p) :=
  compatibility_invariant SABOTAGE_CONFIG EngineState.empty Reachable.init

/-- Counterexample to C8 as stated: `the_ring` is not the only candidate for
`gandalf` — `pedantic_rules_lawyer` and the universal `identity_crisis` also
qualify — and with the weighted pick landing at cumulative position 5 the
first call under `c1` returns the `pedantic_rules_lawyer` prompt, not the
`the_ring` prompt. -/
theorem gandalf_candidates_counterexample :
    (get_compatible_objectives "gandalf").map Objective.id =
      ["the_ring", "pedantic_rules_lawyer", "identity_crisis"] ∧
    (get_compatible_objectives "gandalf").map Objective.id ≠ ["the_ring"] ∧
    get_objective_for_persona SABOTAGE_CONFIG ⟨0, 1, mkRat 5 1⟩ EngineState.empty
        "s1" "c1" "gandalf" ["angry_chef", "gandalf", "your_nan"] =
      some (some obj_pedantic_rules_lawyer.prompt,
        ⟨[("c1", ⟨some "gandalf", some obj_pedantic_rules_lawyer, 1⟩)],
         [("s1", [("gandalf", "pedantic_rules_lawyer", 1)])], [("s1", 1)],
         [("s1", ["c1"])]⟩) ∧
    obj_pedantic_rules_lawyer.prompt ≠ obj_the_ring.prompt :=
  ⟨by decide, by decide, by decide, by decide⟩

/-- C8 as amended: in a fresh session with active personas
`[angry_chef, gandalf, your_nan]`, a forced successful activation roll and
forced saboteur `gandalf`, the candidates for `gandalf` are `the_ring`,
`pedantic_rules_lawyer` and `identity_crisis`; when the weighted pick selects
`the_ring`, the first call for `gandalf` under `c1` returns the `the_ring`
prompt text, and the calls for `angry_chef` and `your_nan` under `c1` return
`none`. -/
theorem gandalf_scenario_amended :
    (get_compatible_objectives "gandalf").map Objective.id =
      ["the_ring", "pedantic_rules_lawyer", "identity_crisis"] ∧
    get_objective_for_persona SABOTAGE_CONFIG ⟨0, 1, 0⟩ EngineState.empty
        "s1" "c1" "gandalf" ["angry_chef", "gandalf", "your_nan"] =
      some (some obj_the_ring.prompt,
        ⟨[("c1", ⟨some "gandalf", some obj_the_ring, 1⟩)],
         [("s1", [("gandalf", "the_ring", 1)])], [("s1", 1)], [("s1", ["c1"])]⟩) ∧
    get_objective_for_persona SABOTAGE_CONFIG ⟨0, 1, 0⟩
        ⟨[("c1", ⟨some "gandalf", some obj_the_ring, 1⟩)],
         [("s1", [("gandalf", "the_ring", 1)])], [("s1", 1)], [("s1", ["c1"])]⟩
        "s1" "c1" "angry_chef" ["angry_chef", "gandalf", "your_nan"] =
      some (none,
        ⟨[("c1", ⟨some "gandalf", some obj_the_ring, 1⟩)],
         [("s1", [("gandalf", "the_ring", 1)])], [("s1", 1)], [("s1", ["c1"])]⟩) ∧
    get_objective_for_persona SABOTAGE_CONFIG ⟨0, 1, 0⟩
        ⟨[("c1", ⟨some "gandalf", some obj_the_ring, 1⟩)],
         [("s1", [("gandalf", "the_ring", 1)])], [("s1", 1)], [("s1", ["c1"])]⟩
        "s1" "c1" "your_nan" ["angry_chef", "gandalf", "your_nan"] =
      some (none,
        ⟨[("c1", ⟨some "gandalf", some obj_the_ring, 1⟩)],
         [("s1", [("gandalf", "the_ring", 1)])], [("s1", 1)], [("s1", ["c1"])]⟩) :=
  ⟨by decide, by decide, by decide, by decide⟩

/-- Counterexample to C9 as stated: `SabotageEngine.__init__` performs no
validation — a configuration with the malformed probability
`chance_per_round = -1` (outside `[0, 1]`) is stored unchanged and the engine
silently runs with it, returning a normal result instead of raising a
configuration error at startup. -/
theorem startup_validation_counterexample :
    engine_init (some ⟨true, mkRat (-1) 1, 1, 2, 4⟩) =
      (⟨true, mkRat (-1) 1, 1, 2, 4⟩, EngineState.empty) ∧
    get_objective_for_persona ⟨true, mkRat (-1) 1, 1, 2, 4⟩ ⟨mkRat 1 2, 0, 0⟩
        EngineState.empty "s1" "c1" "gandalf" ["gandalf"] =
      some (none, ⟨[("c1", ⟨none, none, 0⟩)], [], [("s1", 1)], [("s1", ["c1"])]⟩) :=
  ⟨rfl, by decide⟩

/-- C9 as amended: the program performs no startup validation — `__init__`
stores any provided configuration unchecked (defaulting to
`SABOTAGE_CONFIG`), and the engine runs normally even under a malformed
numeric parameter; the static catalog does happen to satisfy the stated
constraints (every weight positive, every `signature_for` persona inside its
objective's `compatible_personas`), but nothing in the program checks them. -/
theorem startup_validation_amended :
    (∀ cfg, engine_init (some cfg) = (cfg, EngineState.empty)) ∧
    engine_init none = (SABOTAGE_CONFIG, EngineState.empty) ∧
    (∀ obj, obj ∈ OBJECTIVES → 0 < obj.weight ∧
      ∀ p, obj.signature_for = some p → p ∈ obj.compatible_personas) ∧
    (get_objective_for_persona ⟨true, mkRat (-1) 1, 1, 2, 4⟩ ⟨mkRat 1 2, 0, 0⟩
        EngineState.empty "s1" "c1" "gandalf" ["gandalf"]).isSome = true :=
  ⟨fun cfg => rfl, rfl, by decide, by decide⟩

/-- Witness for C9's amended claim: `__init__` accepts an arbitrary concrete
configuration, and the catalog constraints hold at `obj_sarah_connor`. -/
theorem startup_validation_amended_witness :
    engine_init (some ⟨false, mkRat 33 100, 1, 2, 4⟩) =
      (⟨false, mkRat 33 100, 1, 2, 4⟩, EngineState.empty) ∧
    (0 < obj_sarah_connor.weight ∧
      ∀ p, obj_sarah_connor.signature_for = some p →
        p ∈ obj_sarah_connor.compatible_personas) :=
  ⟨startup_validation_amended.1 ⟨false, mkRat 33 100, 1, 2, 4⟩,
   startup_validation_amended.2.2.1 obj_sarah_connor (by decide)⟩
